import Mathlib

/-!
Verification of the Financial Forecasting & KPI Dashboard.

Shallow embedding of the repository's KPI/variance/forecast logic:
* `src/sql/kpi_queries.sql` — SQL KPI and variance queries (ℚ values, SQL
  NULL modelled as `Option ℚ` with NULL-propagating arithmetic, `NULLIF`).
* `src/frontend/src/pages/*.jsx` and the unnamed pages — the JavaScript
  computations cited by the claims (prior-period lookup, margin cards,
  value formatting, average LTV).
* The forecast generator lives in the backend `server.py`, which is not in
  the source tree; it is modelled from the spec where needed.

All numbers are rationals; SQL NULL and JS null/undefined are `Option`.
-/

set_option autoImplicit false

namespace KpiDash

/-! ### SQL NULL semantics -/

/-- SQL `NULLIF(x, y)`: NULL when `x = y`, else `x`. -/
def nullifQ (x y : ℚ) : Option ℚ :=
  if x = y then none else some x

/-- NULL-propagating subtraction, as in SQL arithmetic. -/
def subN (a b : Option ℚ) : Option ℚ :=
  match a, b with
  | some x, some y => some (x - y)
  | _, _ => none

/-- NULL-propagating division, as in SQL arithmetic (denominator assumed
nonzero wherever the queries evaluate it; `NULLIF` guards appear where the
source has them). -/
def divN (a b : Option ℚ) : Option ℚ :=
  match a, b with
  | some x, some y => some (x / y)
  | _, _ => none

/-- NULL-propagating multiplication, as in SQL arithmetic. -/
def mulN (a b : Option ℚ) : Option ℚ :=
  match a, b with
  | some x, some y => some (x * y)
  | _, _ => none

/-! ### Monthly Revenue Summary (`kpi_queries.sql` lines 14–25)

The query groups revenue by month and, over the rows ordered by month,
computes `LAG(SUM(amount))` and
`(SUM(amount) - LAG(...)) / LAG(...) * 100 AS mom_growth`.
We embed the ordered sequence of monthly revenue totals as a list `revs`
(ascending month order, the `OVER (ORDER BY ...)` order); row `i` carries
`revs[i]`. -/

/-- `LAG(revenue)` of row `i`: NULL on the first row, else the previous
row's revenue. -/
def lagRevenue (revs : List ℚ) (i : ℕ) : Option ℚ :=
  if i = 0 then none else revs[i - 1]?

/-- `mom_growth` of row `i`:
`(revenue - LAG(revenue)) / LAG(revenue) * 100` with SQL NULL
propagation. -/
def momGrowth (revs : List ℚ) (i : ℕ) : Option ℚ :=
  mulN (divN (subN revs[i]? (lagRevenue revs i)) (lagRevenue revs i)) (some 100)

/-! ### Core Financial KPIs (`kpi_queries.sql` lines 127–138)

`(revenue - cogs) / NULLIF(revenue, 0) * 100 AS gross_margin_pct` etc. -/

/-- `gross_margin_pct`: `(revenue - cogs) / NULLIF(revenue, 0) * 100`. -/
def gross_margin_pct (revenue cogs : ℚ) : Option ℚ :=
  mulN (divN (some (revenue - cogs)) (nullifQ revenue 0)) (some 100)

/-- `operating_margin_pct`: `(revenue - cogs - opex) / NULLIF(revenue, 0) * 100`. -/
def operating_margin_pct (revenue cogs opex : ℚ) : Option ℚ :=
  mulN (divN (some (revenue - cogs - opex)) (nullifQ revenue 0)) (some 100)

/-- `opex_ratio_pct`: `opex / NULLIF(revenue, 0) * 100`. -/
def opex_ratio_pct (revenue opex : ℚ) : Option ℚ :=
  mulN (divN (some opex) (nullifQ revenue 0)) (some 100)

/-! ### FinancialPage margin cards (`FinancialPage.jsx` lines 94–99)

`const grossMargin = totalRevenue > 0 ? (grossProfit / totalRevenue) * 100 : 0;`
`const netMargin  = totalRevenue > 0 ? (netIncome  / totalRevenue) * 100 : 0;`
These produce the plain number `0` (not null) when revenue is not positive. -/

/-- FinancialPage `grossMargin`. -/
def grossMarginCard (totalRevenue grossProfit : ℚ) : ℚ :=
  if 0 < totalRevenue then grossProfit / totalRevenue * 100 else 0

/-- FinancialPage `netMargin`. -/
def netMarginCard (totalRevenue netIncome : ℚ) : ℚ :=
  if 0 < totalRevenue then netIncome / totalRevenue * 100 else 0

/-! ### Theorems for C1 and C2 -/

/-- **C1.** For the Monthly Revenue Summary rows in month order, row `i ≥ 1`
(with the prior month's revenue nonzero, as required for the SQL division to
evaluate) has
`mom_growth = (revenue[i] - revenue[i-1]) / revenue[i-1] * 100` exactly,
and the first row (`i = 0`, where `LAG` is NULL) has `mom_growth` NULL. -/
theorem momGrowth_formula_and_first_null (revs : List ℚ) (i : ℕ) (ri rp : ℚ)
    (h1 : 1 ≤ i) (hcur : revs[i]? = some ri) (hprev : revs[i - 1]? = some rp) :
    momGrowth revs i = some ((ri - rp) / rp * 100) ∧ momGrowth revs 0 = none := by
  constructor
  · have hi0 : i ≠ 0 := Nat.one_le_iff_ne_zero.mp h1
    simp [momGrowth, lagRevenue, hi0, hcur, hprev, subN, divN, mulN]
  · simp [momGrowth, lagRevenue, subN, divN, mulN]

/-- Witness for C1 on the concrete sequence `[1850000, 1920000]` at `i = 1`
(the spec's Scenario 1 revenues). -/
theorem momGrowth_formula_and_first_null_witness :
    momGrowth [1850000, 1920000] 1 = some ((1920000 - 1850000) / 1850000 * 100) ∧
      momGrowth [1850000, 1920000] 0 = none :=
  momGrowth_formula_and_first_null [1850000, 1920000] 1 1920000 1850000
    (by decide) (by rfl) (by rfl)

/-- **C2 counterexample.** The claim says every revenue-denominator ratio is
null when revenue is 0, never the number 0.  But the FinancialPage margin
card computes the plain number `0` for a period with `totalRevenue = 0` and
`grossProfit = 5`, and that number is surfaced to the caller (rendered as
"0.0%"). -/
theorem zero_revenue_card_yields_zero_not_null :
    grossMarginCard 0 5 = 0 ∧ netMarginCard 0 5 = 0 := by
  constructor <;> simp [grossMarginCard, netMarginCard]

/-- **C2 (amended).** When revenue is 0, the SQL KPI ratios
(`gross_margin_pct`, `operating_margin_pct`, `opex_ratio_pct`) are NULL —
never 0, NaN, or Infinity — while the FinancialPage margin cards
(`grossMargin`, `netMargin`) compute the plain number `0` (guarded by
`totalRevenue > 0`, so never NaN or Infinity, but a numeric 0 rather than
null). -/
theorem zero_revenue_kpis (cogs opex grossProfit netIncome : ℚ) :
    gross_margin_pct 0 cogs = none ∧
      operating_margin_pct 0 cogs opex = none ∧
      opex_ratio_pct 0 opex = none ∧
      grossMarginCard 0 grossProfit = 0 ∧
      netMarginCard 0 netIncome = 0 := by
  refine ⟨?_, ?_, ?_, ?_, ?_⟩ <;>
    simp [gross_margin_pct, operating_margin_pct, opex_ratio_pct,
      grossMarginCard, netMarginCard, nullifQ, divN, mulN]

/-! ### Budget vs Actual Variance (`kpi_queries.sql` lines 60–84)

`actual` stands for `COALESCE(a.actual_amount, 0)` and `budget` for
`b.budget_amount`:

```
CASE WHEN b.budget_amount = 0 THEN 0
     ELSE (actual - budget) / budget * 100 END AS variance_pct,
CASE WHEN category = 'Revenue' AND actual > budget THEN 'Favorable'
     WHEN category = 'Expense' AND actual < budget THEN 'Favorable'
     ELSE 'Unfavorable' END AS variance_status
```
-/

/-- `variance_pct` from the Budget vs Actual query. -/
def variance_pct (actual budget : ℚ) : ℚ :=
  if budget = 0 then 0 else (actual - budget) / budget * 100

/-- `variance_status` from the Budget vs Actual query; the polarity is read
off the row's `account_category` string. -/
def variance_status (category : String) (actual budget : ℚ) : String :=
  if category = "Revenue" ∧ budget < actual then "Favorable"
  else if category = "Expense" ∧ actual < budget then "Favorable"
  else "Unfavorable"

/-! ### Executive Summary runway (`kpi_queries.sql` lines 255–263)

`cp.cash_balance / NULLIF((c.opex - (c.revenue - c.cogs - c.opex)), 0)
 AS runway_months` -/

/-- `runway_months` from the Executive Summary query. -/
def runway_months (cash revenue cogs opex : ℚ) : Option ℚ :=
  divN (some cash) (nullifQ (opex - (revenue - cogs - opex)) 0)

/-! ### Theorems for C3, C4, C5, C6 -/

/-- **C3.** Variance status follows the fixed polarity of the row's
category: for a revenue-type row, current above comparison forces
`Favorable`; for an expense-type row, current above comparison forces
`Unfavorable`.  The polarity is decided by the `account_category` string
alone, never recomputed from the values. -/
theorem variance_status_polarity (actual budget : ℚ) (h : budget < actual) :
    variance_status "Revenue" actual budget = "Favorable" ∧
      variance_status "Expense" actual budget = "Unfavorable" := by
  constructor
  · simp [variance_status, h]
  · have h2 : ¬ actual < budget := not_lt.mpr h.le
    simp [variance_status, h2]

/-- Witness for C3 at `actual = 2`, `budget = 1`. -/
theorem variance_status_polarity_witness :
    variance_status "Revenue" 2 1 = "Favorable" ∧
      variance_status "Expense" 2 1 = "Unfavorable" :=
  variance_status_polarity 2 1 (by norm_num)

/-- **C4.** The claim (and the repository's own
`docs/dashboard_narrative.md` glossary, formula
`(Actual - Comparison) / |Comparison| × 100`) says the divisor is the
absolute value of the comparison.  The query divides by the signed
comparison instead: at `actual = -50`, `budget = -100` the code produces
`-50`, while the documented formula gives `(-50 - (-100)) / 100 × 100 = 50`.
This equation evaluates the code at that failing input. -/
theorem variance_pct_signed_divisor :
    variance_pct (-50) (-100) = -50 ∧ ((-50 : ℚ) - (-100)) / |(-100 : ℚ)| * 100 = 50 := by
  constructor
  · norm_num [variance_pct]
  · norm_num [abs]

/-- **C5 counterexample.** With comparison `0` and current `50`, the query
returns the number `0` for `variance_pct` (not NULL), and an expense-type
row gets status `Unfavorable` even though current `50 > 0` (the claim
demands `Favorable` for any current `> 0`). -/
theorem zero_comparison_not_null :
    variance_pct 50 0 = 0 ∧ variance_status "Expense" 50 0 = "Unfavorable" := by
  constructor
  · simp [variance_pct]
  · simp [variance_status]

/-- **C5 (amended).** When the comparison value is 0, `variance_pct` is the
number `0` (not NULL), and the status still follows the row's polarity
against 0: a revenue-type row is `Favorable` exactly when current `> 0`,
and an expense-type row is `Favorable` exactly when current `< 0`. -/
theorem zero_comparison_behavior (actual : ℚ) :
    variance_pct actual 0 = 0 ∧
      (variance_status "Revenue" actual 0 = "Favorable" ↔ 0 < actual) ∧
      (variance_status "Expense" actual 0 = "Favorable" ↔ actual < 0) := by
  refine ⟨by simp [variance_pct], ?_, ?_⟩
  · by_cases h : 0 < actual <;> simp [variance_status, h]
  · by_cases h : actual < 0 <;> simp [variance_status, h]

/-- **C6 counterexample.** For `cash = 100`, `revenue = 100`, `cogs = 0`,
`opex = 40` the operating income is `60 ≥ 0`, so the claim demands a NULL
runway; the query instead returns `100 / (40 - 60) = -5`, a negative number
of months. -/
theorem runway_negative_example :
    runway_months 100 100 0 40 = some (-5) := by
  norm_num [runway_months, nullifQ, divN]

/-- **C6 (amended).** The query derives the burn as
`opex - (revenue - cogs - opex)` with no `max(0, ·)` and no check on the
sign of operating income: whenever that derived burn is nonzero the runway
is the number `cash / burn` (which is negative when cash and burn have
opposite signs, e.g. with positive operating income exceeding opex), and
it is NULL exactly when the derived burn is 0. -/
theorem runway_formula (cash revenue cogs opex : ℚ)
    (h : opex - (revenue - cogs - opex) ≠ 0) :
    runway_months cash revenue cogs opex =
      some (cash / (opex - (revenue - cogs - opex))) ∧
      runway_months cash revenue cogs ((revenue - cogs) / 2) = none := by
  constructor
  · simp [runway_months, nullifQ, divN, h]
  · have hb : (revenue - cogs) / 2 - (revenue - cogs - (revenue - cogs) / 2) = 0 := by
      ring
    simp [runway_months, nullifQ, divN, hb]

/-- Witness for C6 (amended) at `cash = 120`, `revenue = 100`, `cogs = 20`,
`opex = 30`: derived burn `30 - 50 = -20 ≠ 0`, runway `120 / -20 = -6`. -/
theorem runway_formula_witness :
    runway_months 120 100 20 30 = some (120 / (30 - (100 - 20 - 30))) ∧
      runway_months 120 100 20 ((100 - 20) / 2) = none :=
  runway_formula 120 100 20 30 (by norm_num)

/-! ### Forecast generator

The forecast code lives in the backend `server.py`, which is not part of
the source tree (only the docs and the UI that consumes `forecasts` are);
the generator below is modelled from the spec. -/

/-- One KPI row of a run, as consumed by the dashboard: the fields the
claims touch (`Dashboard.jsx` reads `period`, `revenue`, `gross_margin`,
`operating_margin`, `net_margin`, `mom_growth`). -/
structure KPIRow where
  period : String
  revenue : ℚ
  gross_margin : ℚ
  operating_margin : ℚ
  net_margin : ℚ
  mom_growth : Option ℚ
  deriving DecidableEq

/-- The four forecast scenarios. -/
inductive ScenarioName where
  | base
  | upside
  | downside
  | stress
  deriving DecidableEq

/-- Modelled from the spec: §4.4 — trailing average MoM growth rate over
the last `min(6, length)` periods' `mom_growth` values, ignoring nulls; if
all are null, default to 0. (`server.py` is missing from the tree.) -/
def trailingAvgGrowth (kpis : List KPIRow) : ℚ :=
  let vals := ((kpis.map (·.mom_growth)).drop (kpis.length - 6)).filterMap id
  if vals.length = 0 then 0 else vals.sum / vals.length

/-- Modelled from the spec: §3 ForecastScenario invariant — the growth rate
is the trailing historical average times 1.0 (Base), 1.5 (Upside), 0.5
(Downside), and a fixed −5%/month for Stress regardless of history.
(`server.py` is missing from the tree.) -/
def scenarioRate (s : ScenarioName) (hist : ℚ) : ℚ :=
  match s with
  | .base => hist
  | .upside => 1.5 * hist
  | .downside => 0.5 * hist
  | .stress => -5

/-- Last actual revenue of the run (0 for an empty run). -/
def lastRevenue (kpis : List KPIRow) : ℚ :=
  ((kpis.getLast?).map (·.revenue)).getD 0

/-- Modelled from the spec: §4.4 — project
`revenue[i+1] = revenue[i] × (1 + rate)` compounding from the last actual
period, `n` periods out (the rate is in percent, per the KPISet ×100
invariant). (`server.py` is missing from the tree.) -/
def projectRevenue (r rate : ℚ) : ℕ → List ℚ
  | 0 => []
  | n + 1 => (r * (1 + rate / 100)) :: projectRevenue (r * (1 + rate / 100)) rate n

/-- Modelled from the spec: §6 `generateForecast` — the projected revenue
sequence for a run under a scenario. (`server.py` is missing from the
tree.) -/
def generateForecast (kpis : List KPIRow) (s : ScenarioName) (n : ℕ) : List ℚ :=
  projectRevenue (lastRevenue kpis) (scenarioRate s (trailingAvgGrowth kpis)) n

/-- **C7.** For every run, the Stress scenario uses the fixed rate −5%/month
independent of the run's history — so two runs ending in the same last
actual revenue get identical Stress projections — while Base, Upside and
Downside use the run's trailing average MoM growth times exactly 1.0, 1.5
and 0.5. -/
theorem forecast_scenario_rates (kpis k1 k2 : List KPIRow) (n : ℕ)
    (h : lastRevenue k1 = lastRevenue k2) :
    scenarioRate .stress (trailingAvgGrowth kpis) = -5 ∧
      scenarioRate .base (trailingAvgGrowth kpis) = trailingAvgGrowth kpis ∧
      scenarioRate .upside (trailingAvgGrowth kpis) = 1.5 * trailingAvgGrowth kpis ∧
      scenarioRate .downside (trailingAvgGrowth kpis) = 0.5 * trailingAvgGrowth kpis ∧
      generateForecast k1 .stress n = generateForecast k2 .stress n := by
  refine ⟨rfl, rfl, rfl, rfl, ?_⟩
  simp [generateForecast, scenarioRate, h]

/-- Witness for C7: two runs with different histories (one rising, one a
single flat period) but the same last revenue `100` produce the same
Stress projection. -/
theorem forecast_scenario_rates_witness :
    scenarioRate .stress (trailingAvgGrowth [⟨"a", 50, 0, 0, 0, none⟩]) = -5 ∧
      scenarioRate .base (trailingAvgGrowth [⟨"a", 50, 0, 0, 0, none⟩]) =
        trailingAvgGrowth [⟨"a", 50, 0, 0, 0, none⟩] ∧
      scenarioRate .upside (trailingAvgGrowth [⟨"a", 50, 0, 0, 0, none⟩]) =
        1.5 * trailingAvgGrowth [⟨"a", 50, 0, 0, 0, none⟩] ∧
      scenarioRate .downside (trailingAvgGrowth [⟨"a", 50, 0, 0, 0, none⟩]) =
        0.5 * trailingAvgGrowth [⟨"a", 50, 0, 0, 0, none⟩] ∧
      generateForecast [⟨"a", 50, 0, 0, 0, none⟩, ⟨"b", 100, 0, 0, 0, some 100⟩] .stress 6 =
        generateForecast [⟨"b", 100, 0, 0, 0, none⟩] .stress 6 :=
  forecast_scenario_rates [⟨"a", 50, 0, 0, 0, none⟩]
    [⟨"a", 50, 0, 0, 0, none⟩, ⟨"b", 100, 0, 0, 0, some 100⟩]
    [⟨"b", 100, 0, 0, 0, none⟩] 6 (by rfl)

/-! ### Metric value formatting

The same magnitude heuristic appears in `FinancialPage.jsx` line 305
(`metric.value > 100 ? formatCurrency(metric.value) : value + "%"`),
the DataPage (unnamed part_001 lines 320–324) and `ReportsPage.jsx`
lines 335–337 (both `m.value > 100 ? "$" + (m.value/1000) + "K" : m.value + "%"`). -/

/-- How a metric value is rendered. -/
inductive ValueStyle where
  | currency
  | percent
  deriving DecidableEq

/-- The rendering branch taken for a metric value: the JS conditional
`value > 100 ? <currency> : <percent>`. -/
def metricValueStyle (v : ℚ) : ValueStyle :=
  if 100 < v then .currency else .percent

/-- **C9.** A metric value is rendered as currency exactly when it is
strictly greater than 100, and as a percentage otherwise; in particular the
value 100 itself is rendered as a percentage, whatever the metric's unit. -/
theorem metric_format_threshold :
    (∀ v : ℚ, metricValueStyle v = ValueStyle.currency ↔ 100 < v) ∧
      metricValueStyle 100 = ValueStyle.percent := by
  constructor
  · intro v
    by_cases h : 100 < v <;> simp [metricValueStyle, h]
  · simp [metricValueStyle]

/-! ### CustomerPage average LTV (`CustomerPage.jsx` lines 85–86)

```
const totalCustomers = segments.reduce((acc, seg) => acc + seg.count, 0);
const avgLtv = segments.reduce((acc, seg) => acc + seg.ltv * seg.count, 0)
               / totalCustomers || 0;
```
JS division by zero gives NaN or ±Infinity; `|| 0` then replaces the falsy
NaN (and 0) by 0 but keeps ±Infinity. -/

/-- A JS number: finite, NaN, or a signed infinity. -/
inductive JsNum where
  | val (q : ℚ)
  | nan
  | posInf
  | negInf
  deriving DecidableEq

/-- JS division on finite operands. -/
def jsDiv (a b : ℚ) : JsNum :=
  if b = 0 then
    if a = 0 then .nan else if 0 < a then .posInf else .negInf
  else .val (a / b)

/-- JS `x || 0`: falsy `NaN` (and `0`, unchanged) become `0`; infinities
are truthy and survive. -/
def orZero (x : JsNum) : JsNum :=
  match x with
  | .nan => .val 0
  | x => x

/-- One customer segment as served to `CustomerPage.jsx`. -/
structure Segment where
  segment : String
  count : ℚ
  ltv : ℚ
  deriving DecidableEq

/-- `totalCustomers` from `CustomerPage.jsx`. -/
def totalCustomers (segs : List Segment) : ℚ :=
  (segs.map (·.count)).sum

/-- `avgLtv` from `CustomerPage.jsx`. -/
def avgLtv (segs : List Segment) : JsNum :=
  orZero (jsDiv ((segs.map (fun s => s.ltv * s.count)).sum) (totalCustomers segs))

/-- **C10.** For the empty segment list the computed average LTV is exactly
the finite number 0 (the `0/0 = NaN` is caught by `|| 0`), and for any
segment list with positive total customer count it is the customer-count
weighted mean of the segments' LTV values. -/
theorem avgLtv_safe (segs : List Segment) (h : 0 < totalCustomers segs) :
    avgLtv [] = JsNum.val 0 ∧
      avgLtv segs =
        JsNum.val ((segs.map (fun s => s.ltv * s.count)).sum / totalCustomers segs) := by
  constructor
  · simp [avgLtv, totalCustomers, jsDiv, orZero]
  · simp [avgLtv, jsDiv, orZero, ne_of_gt h]

/-- Witness for C10: segments `A` (4 customers, LTV 10) and `B` (1 customer,
LTV 20) give total 5 and weighted mean `(40 + 20) / 5 = 12`. -/
theorem avgLtv_safe_witness :
    avgLtv [] = JsNum.val 0 ∧
      avgLtv [⟨"A", 4, 10⟩, ⟨"B", 1, 20⟩] =
        JsNum.val ((([⟨"A", 4, 10⟩, ⟨"B", 1, 20⟩] : List Segment).map
          (fun s => s.ltv * s.count)).sum / totalCustomers [⟨"A", 4, 10⟩, ⟨"B", 1, 20⟩]) :=
  avgLtv_safe [⟨"A", 4, 10⟩, ⟨"B", 1, 20⟩] (by norm_num [totalCustomers])

/-! ### Dashboard prior-period lookup (`Dashboard.jsx` lines 464–469, 614–650)

```
const currentKPIs = runData?.kpis?.find(k => k.period === selectedPeriod);
const priorKPIs = runData?.kpis?.find((k, i, arr) => {
  const currentIdx = arr.findIndex(x => x.period === selectedPeriod);
  return i === currentIdx - 1;
});
```
JS `findIndex` returns the first matching index or `-1`; `find` passes the
running index to the predicate.  Both are embedded index-faithfully below.
The margin KPI cards pass
`trend = priorKPIs ? currentKPIs?.<m> - priorKPIs?.<m> : null`. -/

/-- JS `Array.prototype.findIndex`, carrying the running index; `-1` when
nothing matches. -/
def findIndexAux {α : Type} (p : α → Bool) : List α → ℕ → ℤ
  | [], _ => -1
  | x :: xs, i => if p x then (i : ℤ) else findIndexAux p xs (i + 1)

/-- JS `findIndex` from index 0. -/
def jsFindIndex {α : Type} (p : α → Bool) (l : List α) : ℤ :=
  findIndexAux p l 0

/-- JS `Array.prototype.find` with an index-aware predicate. -/
def findWithIdx {α : Type} (p : ℕ → α → Bool) : List α → ℕ → Option α
  | [], _ => none
  | x :: xs, i => if p i x then some x else findWithIdx p xs (i + 1)

/-- `priorKPIs` from `Dashboard.jsx`: the element whose index equals
`findIndex(period = selectedPeriod) - 1`. -/
def priorKPIs (kpis : List KPIRow) (sel : String) : Option KPIRow :=
  findWithIdx (fun i _ => (i : ℤ) == jsFindIndex (fun k => k.period == sel) kpis - 1) kpis 0

/-- The `trend` prop each margin `KPICard` receives:
`priorKPIs ? currentKPIs?.<metric> - priorKPIs?.<metric> : null`
(`f` projects the metric; a missing current value reads as 0 here, a case
the claims never exercise since a prior implies a present current). -/
def marginCardTrend (cur prior : Option KPIRow) (f : KPIRow → ℚ) : Option ℚ :=
  match prior with
  | none => none
  | some p => some ((cur.map f).getD 0 - f p)

theorem findWithIdx_int_lt {α : Type} (l : List α) :
    ∀ (start : ℕ) (t : ℤ), t < (start : ℤ) →
      findWithIdx (fun i _ => (i : ℤ) == t) l start = none := by
  induction l with
  | nil => intro start t _; rfl
  | cons x xs ih =>
    intro start t h
    have hne : ((start : ℤ) == t) = false := by
      simp only [beq_eq_false_iff_ne, ne_eq]
      omega
    simp only [findWithIdx, hne, if_false]
    exact ih (start + 1) t (by push_cast; omega)

theorem findWithIdx_int_get {α : Type} (l : List α) :
    ∀ (start j : ℕ), start ≤ j →
      findWithIdx (fun i _ => (i : ℤ) == (j : ℤ)) l start = l[j - start]? := by
  induction l with
  | nil => intro start j _; simp [findWithIdx]
  | cons x xs ih =>
    intro start j h
    by_cases he : start = j
    · subst he
      simp [findWithIdx]
    · have hne : ((start : ℤ) == (j : ℤ)) = false := by
        simp only [beq_eq_false_iff_ne, ne_eq]
        omega
      have hstep : j - start = (j - (start + 1)) + 1 := by omega
      simp [findWithIdx, hne, ih (start + 1) j (by omega), hstep]

theorem findIndexAux_none {α : Type} (p : α → Bool) (l : List α) :
    ∀ start : ℕ, (∀ x ∈ l, p x = false) → findIndexAux p l start = -1 := by
  induction l with
  | nil => intro start _; rfl
  | cons x xs ih =>
    intro start h
    have hx : p x = false := h x (List.mem_cons_self x xs)
    simp only [findIndexAux, hx, if_false]
    exact ih (start + 1) (fun y hy => h y (List.mem_cons_of_mem x hy))

theorem findIndexAux_first {α : Type} (p : α → Bool) (l : List α) :
    ∀ (start i : ℕ) (row : α), l[i]? = some row → p row = true →
      (∀ j rj, j < i → l[j]? = some rj → p rj = false) →
      findIndexAux p l start = (start : ℤ) + (i : ℤ) := by
  induction l with
  | nil => intro start i row h1 _ _; simp at h1
  | cons x xs ih =>
    intro start i row h1 h2 h3
    cases i with
    | zero =>
      simp only [List.getElem?_cons_zero, Option.some.injEq] at h1
      subst h1
      simp [findIndexAux, h2]
    | succ n =>
      have hx : p x = false := h3 0 x (Nat.succ_pos n) (by simp)
      have h1' : xs[n]? = some row := by simpa using h1
      have h3' : ∀ j rj, j < n → xs[j]? = some rj → p rj = false := by
        intro j rj hj hg
        exact h3 (j + 1) rj (by omega) (by simpa using hg)
      calc findIndexAux p (x :: xs) start
          = findIndexAux p xs (start + 1) := by simp [findIndexAux, hx]
        _ = ((start + 1 : ℕ) : ℤ) + (n : ℤ) := ih (start + 1) n row h1' h2 h3'
        _ = (start : ℤ) + ((n + 1 : ℕ) : ℤ) := by push_cast; ring

/-- **C8.** If the run's KPI list holds the selected period first at index
`i`, then for `i ≥ 1` the prior-KPI lookup returns exactly the element at
index `i - 1`; for `i = 0` it returns nothing; when no element carries the
selected period it returns nothing; and whenever the prior lookup is empty
every margin card's trend is null. -/
theorem priorKPIs_prior_index (kpis : List KPIRow) (sel : String) (i : ℕ) (row : KPIRow)
    (h1 : kpis[i]? = some row) (h2 : row.period = sel)
    (h3 : ∀ j rj, j < i → kpis[j]? = some rj → rj.period ≠ sel) :
    (1 ≤ i → priorKPIs kpis sel = kpis[i - 1]?) ∧
      (i = 0 → priorKPIs kpis sel = none) ∧
      (∀ (ks : List KPIRow) (s : String),
        (∀ r ∈ ks, r.period ≠ s) → priorKPIs ks s = none) ∧
      (∀ (cur : Option KPIRow) (f : KPIRow → ℚ), marginCardTrend cur none f = none) := by
  have hp : (row.period == sel) = true := by simp [h2]
  have hidx : jsFindIndex (fun k => k.period == sel) kpis = (i : ℤ) := by
    have h3' : ∀ j rj, j < i → kpis[j]? = some rj → (rj.period == sel) = false := by
      intro j rj hj hg
      simp [h3 j rj hj hg]
    have h0 := findIndexAux_first (fun k => k.period == sel) kpis 0 i row h1 hp h3'
    simpa [jsFindIndex] using h0
  refine ⟨?_, ?_, ?_, ?_⟩
  · intro hge
    have hcast : jsFindIndex (fun k => k.period == sel) kpis - 1 = ((i - 1 : ℕ) : ℤ) := by
      rw [hidx]; omega
    rw [priorKPIs, hcast, findWithIdx_int_get kpis 0 (i - 1) (Nat.zero_le _)]
    simp
  · intro hi0
    have hcast : jsFindIndex (fun k => k.period == sel) kpis - 1 = (-1 : ℤ) := by
      rw [hidx, hi0]; rfl
    rw [priorKPIs, hcast]
    exact findWithIdx_int_lt kpis 0 (-1) (by norm_num)
  · intro ks s hall
    have hidx2 : jsFindIndex (fun k => k.period == s) ks = -1 := by
      apply findIndexAux_none
      intro x hx
      simp [hall x hx]
    rw [priorKPIs, hidx2]
    exact findWithIdx_int_lt ks 0 (-1 - 1) (by norm_num)
  · intro cur f; rfl

/-- Witness for C8 on the two-period run `["a", "b"]` with `"b"` selected at
index 1: the prior lookup returns the element at index 0. -/
theorem priorKPIs_prior_index_witness :
    (1 ≤ 1 →
      priorKPIs [⟨"a", 1, 0, 0, 0, none⟩, ⟨"b", 2, 0, 0, 0, none⟩] "b" =
        [(⟨"a", 1, 0, 0, 0, none⟩ : KPIRow), ⟨"b", 2, 0, 0, 0, none⟩][1 - 1]?) ∧
      (1 = 0 →
        priorKPIs [⟨"a", 1, 0, 0, 0, none⟩, ⟨"b", 2, 0, 0, 0, none⟩] "b" = none) ∧
      (∀ (ks : List KPIRow) (s : String),
        (∀ r ∈ ks, r.period ≠ s) → priorKPIs ks s = none) ∧
      (∀ (cur : Option KPIRow) (f : KPIRow → ℚ), marginCardTrend cur none f = none) :=
  priorKPIs_prior_index [⟨"a", 1, 0, 0, 0, none⟩, ⟨"b", 2, 0, 0, 0, none⟩] "b" 1
    ⟨"b", 2, 0, 0, 0, none⟩ (by rfl) (by rfl)
    (by
      intro j rj hj hg
      have hj0 : j = 0 := by omega
      subst hj0
      simp only [List.getElem?_cons_zero, Option.some.injEq] at hg
      subst hg
      decide)

end KpiDash
